import Mathlib

/-!
# Shallow embedding of `reactord` (PipeWire volume-notification daemon)

This file embeds the parts of the repository that the verified properties
talk about:

* `src/utils.rs` — the `Subscriptions` registry (per-object listeners,
  owned proxies, removal callbacks) and `volume_from_pod`;
* `src/pwloop.rs` — the property-change parameter callback installed by
  `subscribe_node` / `subscribe_device`, and the supervisor teardown
  sequence of `PWContext::begin` + `start_pw_thread`;
* `src/state.rs` — the data model (`VolumeInfo`, `Entry`, `ActionType`);
* `src/main.rs` — `build_volume_notification` and the `handle_action`
  reconciler together with the consumer loop in `run`.

Modelling conventions:

* Rust `HashMap<u32, V>` becomes an association list `List (Nat × V)`
  with `alookup` / `ainsert` / `aerase`, `entry().or_default().push`
  becomes `apush` and `entry().or_insert` becomes `aorInsert`.  Insertion
  order of an association list stands in for the (unspecified) hash-map
  iteration order; no proved property depends on cross-key iteration
  order.
* `f32` scalars are modelled as exact rationals `ℚ`; no proved property
  depends on floating-point rounding of the scalar values themselves.
  `f32::round` (round half away from zero) is `f32_round`, computed on
  the numerator/denominator so that it evaluates by `decide`.
* Closures held by the registry (property-change listeners, removal
  callbacks, the owned proxy) are modelled as opaque numeric tokens;
  invoking or dropping one is recorded as an explicit trace event.
* The notification collaborator (notify-rust) is modelled as always
  succeeding; shown notifications receive handles from a counter that is
  threaded through the reconciler.  The proved properties count and
  inspect the presentation calls themselves, not their delivery.
-/

/-! ## Association-list model of `HashMap<u32, V>` -/

/-- `HashMap::get` / lookup. -/
def alookup {α : Type} : List (Nat × α) → Nat → Option α
  | [], _ => none
  | (k, v) :: rest, key => if k = key then some v else alookup rest key

/-- `HashMap::contains_key`. -/
def acontains {α : Type} (m : List (Nat × α)) (key : Nat) : Bool :=
  (alookup m key).isSome

/-- `HashMap::remove` (the mapping disappears; the removed value is dropped). -/
def aerase {α : Type} : List (Nat × α) → Nat → List (Nat × α)
  | [], _ => []
  | (k, v) :: rest, key =>
    if k = key then aerase rest key else (k, v) :: aerase rest key

/-- `HashMap::insert` (replaces an existing mapping). -/
def ainsert {α : Type} : List (Nat × α) → Nat → α → List (Nat × α)
  | [], key, v => [(key, v)]
  | (k, w) :: rest, key, v =>
    if k = key then (k, v) :: rest else (k, w) :: ainsert rest key v

/-- `HashMap::entry(k).or_default().push(v)` on a map of vectors:
appends `v` to the bucket of `k`, creating the bucket if absent. -/
def apush {α : Type} : List (Nat × List α) → Nat → α → List (Nat × List α)
  | [], key, v => [(key, [v])]
  | (k, vs) :: rest, key, v =>
    if k = key then (k, vs ++ [v]) :: rest else (k, vs) :: apush rest key v

/-- `HashMap::entry(k).or_insert(v)`: inserts only when the key is absent. -/
def aorInsert {α : Type} : List (Nat × α) → Nat → α → List (Nat × α)
  | [], key, v => [(key, v)]
  | (k, w) :: rest, key, v =>
    if k = key then (k, w) :: rest else (k, w) :: aorInsert rest key v

/-! ## `src/utils.rs` — the `Subscriptions` registry -/

/-- A `Box<dyn ProxyT>` owned by the registry: the proxy for the PipeWire
object with id `oid` (`obj.upcast_ref().id()`), abstracted to a token. -/
structure ProxyT where
  oid : Nat
  tok : Nat
deriving DecidableEq, Repr

/-- `Subscriptions` (utils.rs:20-30): per-object event-listener handles,
owned proxies, and object-removal callbacks.  Listener handles and
removal callbacks are opaque numeric tokens. -/
structure Subscriptions where
  listeners : List (Nat × List Nat)
  objects : List (Nat × ProxyT)
  disposers : List (Nat × List Nat)
deriving DecidableEq, Repr

/-- Error signalled by `Subscriptions::on_object_remove`
(`anyhow!("object {oid} is not registered")`). -/
inductive SubsError
  | unregisteredObject (oid : Nat)
deriving DecidableEq, Repr

/-- `Subscriptions::new` (utils.rs:33-39). -/
def Subscriptions.new : Subscriptions :=
  { listeners := [], objects := [], disposers := [] }

/-- `Subscriptions::add_subscription` (utils.rs:41-43):
`self.listeners.entry(oid).or_default().push(listener)` — unconditional,
with no check that `oid` has a registered object, and no error path. -/
def Subscriptions.add_subscription (s : Subscriptions) (oid : Nat) (listener : Nat) :
    Subscriptions :=
  { s with listeners := apush s.listeners oid listener }

/-- `Subscriptions::on_object_remove` (utils.rs:45-53): appends a removal
callback only when `objects.contains_key(&oid)`, otherwise errors without
mutating anything. -/
def Subscriptions.on_object_remove (s : Subscriptions) (oid : Nat) (listener : Nat) :
    Except SubsError Subscriptions :=
  match acontains s.objects oid with
  | true => .ok { s with disposers := apush s.disposers oid listener }
  | false => .error (.unregisteredObject oid)

/-- `Subscriptions::add_object` (utils.rs:55-58):
`self.objects.entry(oid).or_insert(obj)` keyed by the proxy's own id. -/
def Subscriptions.add_object (s : Subscriptions) (obj : ProxyT) : Subscriptions :=
  { s with objects := aorInsert s.objects obj.oid obj }

/-- Observable side effects of `Subscriptions::remove_object`, in program
order: each removal callback invocation, then the drop of the disposer
list, of the owned proxy, and of the listener handles (each drop event is
emitted only when the corresponding map actually held the key). -/
inductive RemoveEvent
  | callback (oid tag : Nat)
  | dropDisposers (oid : Nat)
  | dropProxy (oid : Nat)
  | dropListeners (oid : Nat)
deriving DecidableEq, Repr

/-- `Subscriptions::remove_object` (utils.rs:60-70): runs every disposer
callback registered for `oid` in registration order, then executes
`disposers.remove(&oid)`, `objects.remove(&oid)`, `listeners.remove(&oid)`
in that statement order — so the dropped values die in exactly that
order: disposer closures, then the owned proxy, then the listener
handles.  Returns the new registry and the event trace. -/
def Subscriptions.remove_object (s : Subscriptions) (oid : Nat) :
    Subscriptions × List RemoveEvent :=
  let cbs := match alookup s.disposers oid with
    | some subs => subs.map (fun tag => RemoveEvent.callback oid tag)
    | none => []
  let drops :=
    (if acontains s.disposers oid then [RemoveEvent.dropDisposers oid] else []) ++
    (if acontains s.objects oid then [RemoveEvent.dropProxy oid] else []) ++
    (if acontains s.listeners oid then [RemoveEvent.dropListeners oid] else [])
  ({ listeners := aerase s.listeners oid,
     objects := aerase s.objects oid,
     disposers := aerase s.disposers oid },
   cbs ++ drops)

/-- `Subscriptions::clear` (utils.rs:72-78): `disposers.clear()` and
`listeners.clear()`; `objects.clear()` is commented out in the source
(TODO about `impl_ext_end_proxy`), so the owned proxies stay. -/
def Subscriptions.clear (s : Subscriptions) : Subscriptions :=
  { s with disposers := [], listeners := [] }

/-! ## Supervisor teardown — `PWContext::begin` + `start_pw_thread` -/

/-- Steps the supervisor performs once the cancellation callback returns
(utils.rs:170-178 and pwloop.rs:254-263). -/
inductive SupEvent
  | clearSubs
  | stopLoop
  | enqueueShutdown
deriving DecidableEq, Repr

/-- What happens after the one-shot cancellation signal is received:
`PWContext::begin`'s callback returns, then `begin` runs
`self.subs.borrow_mut().clear()` followed by `self.thread_loop.stop()`
(utils.rs:176-177), and `start_pw_thread` then unconditionally runs
`tx.blocking_send(ActionType::Shutdown)` (pwloop.rs:262).  Returns the
registry after `clear` plus the ordered event trace. -/
def supervisor_on_cancel (s : Subscriptions) : Subscriptions × List SupEvent :=
  (s.clear, [SupEvent.clearSubs, SupEvent.stopLoop, SupEvent.enqueueShutdown])

/-! ## `src/state.rs` — data model -/

/-- `DeviceKind` (state.rs:3-16). -/
inductive DeviceKind
  | Unknown
  | Device
  | Sink
  | Source
deriving DecidableEq, Repr

/-- `VolumeInfo` (state.rs:30-35), scalars as exact rationals.

Modelled from the spec: the source under `src/` derives only
`Debug, Clone, Default` for `VolumeInfo`, yet `handle_action` compares
two `VolumeInfo` with `==`; the `PartialEq` implementation lives outside
the provided sources.  Per the spec, two `VolumeInfo` are equal iff
`volume`, `mute` and `channel_volumes` are pairwise equal, which is the
structural equality `DecidableEq` derives here. -/
structure VolumeInfo where
  volume : Option ℚ
  mute : Option Bool
  channel_volumes : List ℚ
deriving DecidableEq, Repr

/-- `VolumeInfo::default()`. -/
def VolumeInfo.default : VolumeInfo :=
  { volume := none, mute := none, channel_volumes := [] }

/-- `Entry` (state.rs:70-80). -/
structure Entry where
  id : Nat
  is_node : Bool
  device_id : Option Nat
  name : Option String
  label : Option String
  description : Option String
  kind : DeviceKind
  volume : Option VolumeInfo
deriving DecidableEq, Repr

/-- `Entry::get_label` (state.rs:82-91): `label` or `description` or
`name`, else `"<unnamed>"`. -/
def Entry.get_label (e : Entry) : String :=
  match e.label, e.description, e.name with
  | some l, _, _ => l
  | none, some d, _ => d
  | none, none, some n => n
  | none, none, none => "<unnamed>"

/-- `ActionType` (state.rs:102-108). -/
inductive ActionType
  | EntryAdd (oid : Nat) (entry : Entry)
  | EntryRemove (oid : Nat)
  | VolumeChange (oid : Nat) (vol : VolumeInfo)
  | Shutdown
deriving DecidableEq, Repr

/-- Reconciler state as used by `main.rs`.

Modelled from the spec: the `State` struct in the provided
`src/state.rs` predates `main.rs`, which accesses a `notifications`
map (`state.notifications`) absent from it.  Per the spec, the
application-side state is the mapping `id → Entry` plus
`id → outstanding-notification-handle`; handles are numeric tokens. -/
structure State where
  devices : List (Nat × Entry)
  notifications : List (Nat × Nat)
deriving DecidableEq, Repr

/-- Modelled from the spec: `State::remove_entry` is called by
`handle_action` on `EntryRemove` but is not defined in the provided
sources.  Per the spec it erases the entry and the notification handle
from both maps and yields the handle (if any) so the caller can close
it. -/
def State.remove_entry (st : State) (oid : Nat) : State × Option Nat :=
  (⟨aerase st.devices oid, aerase st.notifications oid⟩,
   alookup st.notifications oid)

/-- Modelled from the spec: `State::clear_entries` is called by
`handle_action` on `Shutdown` but is not defined in the provided
sources.  Per the spec it clears both maps and yields every outstanding
notification handle so the caller can close them. -/
def State.clear_entries (st : State) : State × List Nat :=
  (⟨[], []⟩, st.notifications.map Prod.snd)

/-! ## `src/utils.rs` — `volume_from_pod`, and the `pwloop.rs` param callback -/

/-- A deserialized SPA pod value, as far as `volume_from_pod` inspects
it: a float (`get_float`), a bool (`get_bool`), a byte payload that
deserializes to a float array (`PodDeserializer`), or anything else. -/
inductive PodValue
  | floatV (q : ℚ)
  | boolV (b : Bool)
  | floatArrayV (qs : List ℚ)
  | otherV
deriving DecidableEq, Repr

/-- One property of a pod object: SPA key and value. -/
structure PodProp where
  key : Nat
  value : PodValue
deriving DecidableEq, Repr

/-- A pod as seen by `volume_from_pod`: either `as_object()` fails, or
it is an object with a property list. -/
inductive Pod
  | notObject
  | object (props : List PodProp)
deriving DecidableEq, Repr

/-- `SPA_PROP_volume` (spa/param/props.h: `SPA_PROP_START_Audio = 0x10000`,
then `waveType`, `frequency`, `volume`). -/
def SPA_PROP_volume : Nat := 0x10003

/-- `SPA_PROP_mute`. -/
def SPA_PROP_mute : Nat := 0x10004

/-- `SPA_PROP_channelVolumes`. -/
def SPA_PROP_channelVolumes : Nat := 0x10008

/-- `value_pod.get_float().ok()`. -/
def PodValue.get_float : PodValue → Option ℚ
  | .floatV q => some q
  | _ => none

/-- `value_pod.get_bool().ok()`. -/
def PodValue.get_bool : PodValue → Option Bool
  | .boolV b => some b
  | _ => none

/-- `PodDeserializer::deserialize_any_from(..)` matched against
`Value::ValueArray(ValueArray::Float(volumes))`. -/
def PodValue.get_float_array : PodValue → Option (List ℚ)
  | .floatArrayV qs => some qs
  | _ => none

/-- The `HACK` block of `volume_from_pod` (utils.rs:240-251): when the
master volume is exactly `1.0` with channel volumes present, or absent
with channel volumes present, replace it by `channel_volumes[0]`. -/
def apply_channel_hack (vi : VolumeInfo) : VolumeInfo :=
  match vi.volume, vi.channel_volumes with
  | some q, c :: _ => if q = 1 then { vi with volume := some c } else vi
  | none, c :: _ => { vi with volume := some c }
  | _, _ => vi

/-- One iteration of the `for prop in obj.props()` loop of
`volume_from_pod` (utils.rs:215-238), updating the accumulated
`VolumeInfo` and the `found` flag.  Note that a `volume` or `mute` key
sets `found` even when its value fails to parse (the field is then
overwritten with `None`), while `channelVolumes` sets `found` only when
its payload deserializes to a float array. -/
def volume_from_pod_step (acc : VolumeInfo × Bool) (prop : PodProp) : VolumeInfo × Bool :=
  let vi := acc.1
  let found := acc.2
  if prop.key = SPA_PROP_volume then
    ({ vi with volume := prop.value.get_float }, true)
  else if prop.key = SPA_PROP_mute then
    ({ vi with mute := prop.value.get_bool }, true)
  else if prop.key = SPA_PROP_channelVolumes then
    match prop.value.get_float_array with
    | some qs => ({ vi with channel_volumes := qs }, true)
    | none => (vi, found)
  else (vi, found)

/-- `volume_from_pod` (utils.rs:209-257): `None` unless the pod is an
object and at least one recognized key was `found`; otherwise the
accumulated `VolumeInfo` after the channel-volume hack. -/
def volume_from_pod : Pod → Option VolumeInfo
  | .notObject => none
  | .object props =>
    let r := props.foldl volume_from_pod_step (VolumeInfo.default, false)
    if r.2 then some (apply_channel_hack r.1) else none

/-- `ParamType` as matched by the `b.param(..)` callbacks. -/
inductive ParamType
  | Props
  | Route
  | Other
deriving DecidableEq, Repr

/-- The property-change parameter callback installed by `subscribe_node`
(pwloop.rs:72-88) — `subscribe_device` (pwloop.rs:29-41) has the same
logic: any parameter type other than `Props` is ignored, otherwise
`param.and_then(volume_from_pod)` decides whether a
`VolumeChange(node_id, vol)` action is sent. -/
def node_param_event (node_id : Nat) (param_type : ParamType) (param : Option Pod) :
    Option ActionType :=
  match param_type with
  | .Props => (param.bind volume_from_pod).map (fun v => ActionType.VolumeChange node_id v)
  | _ => none

/-! ## `src/main.rs` — notification building and the reconciler -/

/-- The notification request assembled by `build_volume_notification`:
summary text, icon, the optional `Hint::CustomInt("value", v)` progress
hint, urgency and timeout (the last two are always `Normal` / 5 s). -/
structure Notification where
  summary : String
  icon : String
  hint : Option Int
  urgency_normal : Bool
  timeout_secs : Nat
deriving DecidableEq, Repr

/-- Rust `f32::round` (round half away from zero), computed on the exact
rational via its reduced numerator/denominator:
`⌊|q| + 1/2⌋ = (2·|num| + den) / (2·den)` in natural-number division,
with the sign reapplied.  (`Rat.add` is `@[irreducible]`, so the
definition avoids rational arithmetic to stay kernel-evaluable.) -/
def f32_round (q : ℚ) : Int :=
  let mag : Nat := (2 * q.num.natAbs + q.den) / (2 * q.den)
  if 0 ≤ q.num then (mag : Int) else -(mag : Int)

/-- Presentation calls made to the notification collaborator. -/
inductive PCall
  | showN (n : Notification)
  | updateN (handle : Nat) (n : Notification)
  | closeN (handle : Nat)
deriving DecidableEq, Repr

/-- `build_volume_notification` (main.rs:31-73): derived value is the
master volume, else `channel_volumes[0]`; a true mute flag wins, else a
present value yields a `label - v%` notification with `v` the rounded
raw value; with neither, `None` (the caller then only closes any
existing handle). -/
def build_volume_notification (entry : Entry) (vol : VolumeInfo) : Option Notification :=
  let val := match vol.volume with
    | some v => some v
    | none => vol.channel_volumes.head?
  match vol.mute, val with
  | some true, _ =>
    some { summary := entry.get_label ++ " - Muted",
           icon := "audio-volume-muted-symbolic",
           hint := none, urgency_normal := true, timeout_secs := 5 }
  | _, some value =>
    let v := f32_round value
    some { summary := entry.get_label ++ " - " ++ toString v ++ "%",
           icon := "audio-volume-high-symbolic",
           hint := some v, urgency_normal := true, timeout_secs := 5 }
  | _, _ => none

/-- `handle_action` (main.rs:105-184).  `next` is the source of fresh
notification handles (the collaborator is modelled as succeeding, see
the file header); result is the new state, the next fresh handle, and
the presentation calls made, in order. -/
def handle_action (st : State) (next : Nat) (a : ActionType) : State × Nat × List PCall :=
  match a with
  | ActionType.EntryAdd oid entry =>
    ({ st with devices := ainsert st.devices oid entry }, next, [])
  | ActionType.VolumeChange oid vol =>
    match alookup st.devices oid with
    | none => (st, next, [])
    | some e =>
      match e.volume with
      | none =>
        ({ st with devices := ainsert st.devices oid { e with volume := some vol } },
         next, [])
      | some current =>
        if current = vol then (st, next, [])
        else
          match build_volume_notification e vol with
          | none =>
            match alookup st.notifications oid with
            | some h =>
              ({ devices := ainsert st.devices oid { e with volume := some vol },
                 notifications := aerase st.notifications oid },
               next, [PCall.closeN h])
            | none =>
              ({ st with devices := ainsert st.devices oid { e with volume := some vol } },
               next, [])
          | some n =>
            match alookup st.notifications oid with
            | some h =>
              ({ devices := ainsert st.devices oid { e with volume := some vol },
                 notifications := ainsert (aerase st.notifications oid) oid h },
               next, [PCall.updateN h n])
            | none =>
              ({ devices := ainsert st.devices oid { e with volume := some vol },
                 notifications := ainsert st.notifications oid next },
               next + 1, [PCall.showN n])
  | ActionType.EntryRemove oid =>
    match alookup st.devices oid with
    | none => (st, next, [])
    | some _ =>
      let r := st.remove_entry oid
      match r.2 with
      | some h => (r.1, next, [PCall.closeN h])
      | none => (r.1, next, [])
  | ActionType.Shutdown =>
    let r := st.clear_entries
    (r.1, next, r.2.map PCall.closeN)

/-- The consumer loop of `run` (main.rs:199-212): processes every
message received from the action channel in order; no action — including
`Shutdown` — breaks the loop (the only `break` is on the ctrl-c signal
arm of the `select!`). -/
def run_loop : State → Nat → List ActionType → State × Nat × List PCall
  | st, next, [] => (st, next, [])
  | st, next, a :: rest =>
    let r := handle_action st next a
    let r2 := run_loop r.1 r.2.1 rest
    (r2.1, r2.2.1, r.2.2 ++ r2.2.2)


/-! ## Predicates used by the verified properties -/

/-- The `found` contribution of one pod property in `volume_from_pod`:
a `volume` or `mute` key always counts (even when its value fails to
parse), a `channelVolumes` key counts only when its payload deserializes
to a float array. -/
def recognized_prop (p : PodProp) : Bool :=
  if p.key = SPA_PROP_volume then true
  else if p.key = SPA_PROP_mute then true
  else if p.key = SPA_PROP_channelVolumes then p.value.get_float_array.isSome
  else false

/-- Registry invariant: every id with a removal-callback bucket also has
a registered proxy object. -/
def DisposersRegistered (s : Subscriptions) : Prop :=
  ∀ p ∈ s.disposers, acontains s.objects p.1 = true

/-! ## Concrete inputs used by the per-claim witnesses and counterexamples -/

/-- Registry holding, for object id 5: one listener handle (token 11),
the owned proxy, and one removal callback (token 21). -/
def c1subs : Subscriptions := ⟨[(5, [11])], [(5, ⟨5, 0⟩)], [(5, [21])]⟩

/-- Stored volume snapshot for the deduplication scenario. -/
def c2stored : VolumeInfo := ⟨some (mkRat 1 2), some false, [mkRat 1 2]⟩

/-- Live entry for id 2 with stored volume `c2stored`. -/
def c2entry : Entry :=
  ⟨2, true, none, none, some "A", none, DeviceKind.Sink, some c2stored⟩

/-- A `VolumeInfo` equal to `c2stored` field by field (`mkRat 2 4`
normalizes to the same rational as `mkRat 1 2`). -/
def c2vol : VolumeInfo := ⟨some (mkRat 2 4), some false, [mkRat 2 4]⟩

/-- Reconciler state for the deduplication scenario. -/
def c2state : State := ⟨[(2, c2entry)], []⟩

/-- Freshly added entry for id 1: stored volume still `None`. -/
def c3entry : Entry := ⟨1, true, none, none, some "A", none, DeviceKind.Sink, none⟩

/-- First snapshot delivered for `c3entry`. -/
def c3volA : VolumeInfo := ⟨some (mkRat 4 5), some false, []⟩

/-- A second, different `VolumeInfo` carrying no mute flag and no
derivable volume value. -/
def c3volB : VolumeInfo := ⟨none, none, []⟩

/-- A second, different `VolumeInfo` that *is* classifiable (volume
present). -/
def c3volC : VolumeInfo := ⟨some (mkRat 3 10), some false, []⟩

/-- Reconciler state with the freshly added entry. -/
def c3state : State := ⟨[(1, c3entry)], []⟩

/-- Registry holding one fully registered object (id 1). -/
def c5subs : Subscriptions := ⟨[(1, [2])], [(1, ⟨1, 0⟩)], [(1, [3])]⟩

/-- Two live entries for the shutdown scenario. -/
def c6entryA : Entry := ⟨1, true, none, none, some "A", none, DeviceKind.Sink, none⟩

/-- Second live entry for the shutdown scenario. -/
def c6entryB : Entry := ⟨2, true, none, none, some "B", none, DeviceKind.Sink, none⟩

/-- Entry delivered on the action channel after `Shutdown`. -/
def c6entryC : Entry := ⟨3, true, none, none, some "C", none, DeviceKind.Sink, none⟩

/-- Reconciler state with two live entries and two outstanding
notification handles (10 and 11). -/
def c6state : State := ⟨[(1, c6entryA), (2, c6entryB)], [(1, 10), (2, 11)]⟩

/-- Stored volume snapshot for the silence scenario. -/
def c7stored : VolumeInfo := ⟨some (mkRat 1 2), none, []⟩

/-- Live entry for id 1 with stored volume `c7stored`. -/
def c7entry : Entry :=
  ⟨1, true, none, none, some "A", none, DeviceKind.Sink, some c7stored⟩

/-- Reconciler state for the silence scenario: one live entry with an
outstanding notification handle 10. -/
def c7state : State := ⟨[(1, c7entry)], [(1, 10)]⟩

/-- Incoming change that carries a mute flag (`Some(false)`) but no
derivable volume value. -/
def c7vol : VolumeInfo := ⟨none, some false, []⟩

/-- Live entry 5 labelled `Headphones` with stored volume 0.8. -/
def c9entry : Entry :=
  ⟨5, true, none, none, some "Headphones", none, DeviceKind.Sink,
   some ⟨some (mkRat 4 5), some false, []⟩⟩

/-- Genuine change to volume 0.6, mute `Some(false)`. -/
def c9vol : VolumeInfo := ⟨some (mkRat 3 5), some false, []⟩

/-- Reconciler state for the end-to-end display scenario. -/
def c9state : State := ⟨[(5, c9entry)], []⟩

/-! ## Helper lemmas about the association-list map model -/

theorem alookup_aerase_self {α : Type} (m : List (Nat × α)) (k : Nat) :
    alookup (aerase m k) k = none := by
  induction m with
  | nil => rfl
  | cons p rest ih =>
    obtain ⟨a, v⟩ := p
    by_cases h : a = k
    · simp [aerase, h, ih]
    · simp [aerase, h, alookup, ih]

theorem alookup_aerase_ne {α : Type} (m : List (Nat × α)) {j k : Nat} (h : j ≠ k) :
    alookup (aerase m k) j = alookup m j := by
  induction m with
  | nil => rfl
  | cons p rest ih =>
    obtain ⟨a, v⟩ := p
    by_cases hk : a = k
    · subst hk
      simp [aerase, alookup, ih, Ne.symm h]
    · by_cases hj : a = j
      · subst hj
        simp [aerase, hk, alookup]
      · simp [aerase, hk, alookup, hj, ih]

theorem aerase_eq_of_alookup_none {α : Type} (m : List (Nat × α)) (k : Nat)
    (h : alookup m k = none) : aerase m k = m := by
  induction m with
  | nil => rfl
  | cons p rest ih =>
    obtain ⟨a, v⟩ := p
    by_cases hk : a = k
    · simp [alookup, hk] at h
    · simp only [alookup, if_neg hk] at h
      simp [aerase, hk, ih h]

theorem alookup_ainsert_self {α : Type} (m : List (Nat × α)) (k : Nat) (v : α) :
    alookup (ainsert m k v) k = some v := by
  induction m with
  | nil => simp [ainsert, alookup]
  | cons p rest ih =>
    obtain ⟨a, w⟩ := p
    by_cases h : a = k
    · simp [ainsert, h, alookup]
    · simp [ainsert, h, alookup, ih]

theorem alookup_apush_self {α : Type} (m : List (Nat × List α)) (k : Nat) (v : α) :
    alookup (apush m k v) k = some ((alookup m k).getD [] ++ [v]) := by
  induction m with
  | nil => simp [apush, alookup]
  | cons p rest ih =>
    obtain ⟨a, vs⟩ := p
    by_cases h : a = k
    · simp [apush, h, alookup]
    · simp [apush, h, alookup, ih]

theorem mem_aerase {α : Type} {p : Nat × α} {m : List (Nat × α)} {k : Nat}
    (h : p ∈ aerase m k) : p ∈ m ∧ p.1 ≠ k := by
  induction m with
  | nil => simp [aerase] at h
  | cons q rest ih =>
    obtain ⟨a, v⟩ := q
    by_cases hk : a = k
    · rw [aerase, if_pos hk] at h
      exact ⟨List.mem_cons_of_mem _ (ih h).1, (ih h).2⟩
    · rw [aerase, if_neg hk] at h
      rcases List.mem_cons.mp h with h1 | h1
      · subst h1
        exact ⟨List.mem_cons_self _ _, hk⟩
      · exact ⟨List.mem_cons_of_mem _ (ih h1).1, (ih h1).2⟩

theorem mem_apush {α : Type} {p : Nat × List α} {m : List (Nat × List α)} {k : Nat} {v : α}
    (h : p ∈ apush m k v) : p.1 = k ∨ ∃ l, (p.1, l) ∈ m := by
  induction m with
  | nil =>
    rw [apush] at h
    rcases List.mem_cons.mp h with h1 | h1
    · exact Or.inl (by rw [h1])
    · simp at h1
  | cons q rest ih =>
    obtain ⟨a, vs⟩ := q
    by_cases hk : a = k
    · rw [apush, if_pos hk] at h
      rcases List.mem_cons.mp h with h1 | h1
      · exact Or.inl (by rw [h1, hk])
      · exact Or.inr ⟨p.2, by simp [List.mem_cons.mpr (Or.inr h1)]⟩
    · rw [apush, if_neg hk] at h
      rcases List.mem_cons.mp h with h1 | h1
      · exact Or.inr ⟨vs, by rw [h1]; exact List.mem_cons_self _ _⟩
      · rcases ih h1 with h2 | ⟨l, h2⟩
        · exact Or.inl h2
        · exact Or.inr ⟨l, List.mem_cons_of_mem _ h2⟩

theorem acontains_aorInsert_of {α : Type} {m : List (Nat × α)} {j : Nat} (k : Nat) (v : α)
    (h : acontains m j = true) : acontains (aorInsert m k v) j = true := by
  induction m with
  | nil => simp [acontains, alookup] at h
  | cons p rest ih =>
    obtain ⟨a, w⟩ := p
    by_cases hk : a = k
    · simpa [aorInsert, hk] using h
    · by_cases hj : a = j
      · subst hj
        simp [aorInsert, hk, acontains, alookup]
      · simp only [acontains, alookup, if_neg hj] at h
        simpa [aorInsert, hk, acontains, alookup, hj] using ih h

theorem acontains_aerase_of_ne {α : Type} {m : List (Nat × α)} {j k : Nat}
    (h : acontains m j = true) (hne : j ≠ k) : acontains (aerase m k) j = true := by
  unfold acontains at h ⊢
  rw [alookup_aerase_ne m hne]
  exact h

/-! ## Lemmas about notification building and pod parsing -/

theorem build_volume_notification_eq_none_iff (e : Entry) (w : VolumeInfo) :
    build_volume_notification e w = none
      ↔ (w.mute ≠ some true ∧ w.volume = none ∧ w.channel_volumes = []) := by
  rcases w with ⟨wv, wm, wc⟩
  rcases wm with _ | b
  · cases wv <;> cases wc <;> simp [build_volume_notification]
  · cases b
    · cases wv <;> cases wc <;> simp [build_volume_notification]
    · cases wv <;> cases wc <;> simp [build_volume_notification]

theorem foldl_volume_step_found (props : List PodProp) (acc : VolumeInfo × Bool) :
    (props.foldl volume_from_pod_step acc).2 = (acc.2 || props.any recognized_prop) := by
  induction props generalizing acc with
  | nil => simp
  | cons p rest ih =>
    rw [List.foldl_cons, ih, List.any_cons]
    obtain ⟨vi, b⟩ := acc
    obtain ⟨k, val⟩ := p
    simp only [volume_from_pod_step, recognized_prop]
    by_cases h1 : k = SPA_PROP_volume
    · rw [if_pos h1, if_pos h1]
      simp
    · rw [if_neg h1, if_neg h1]
      by_cases h2 : k = SPA_PROP_mute
      · rw [if_pos h2, if_pos h2]
        simp
      · rw [if_neg h2, if_neg h2]
        by_cases h3 : k = SPA_PROP_channelVolumes
        · rw [if_pos h3, if_pos h3]
          cases hv : val.get_float_array <;> simp [hv]
        · rw [if_neg h3, if_neg h3]
          simp

theorem volume_from_pod_isSome (props : List PodProp) :
    (volume_from_pod (Pod.object props)).isSome = props.any recognized_prop := by
  simp only [volume_from_pod, foldl_volume_step_found, Bool.false_or]
  cases h : props.any recognized_prop <;> simp [h]

/-- Sanity check for the `f32_round` encoding: on nonnegative rationals
(the only ones the daemon ever rounds — volumes are 0.0 to 1.0) it
coincides with the mathematical `⌊q + 1/2⌋`, i.e. round half away from
zero. -/
theorem f32_round_eq_floor (q : ℚ) (h : 0 ≤ q) : f32_round q = ⌊q + 1 / 2⌋ := by
  have hnum : 0 ≤ q.num := Rat.num_nonneg.mpr h
  have habs : (q.num.natAbs : Int) = q.num := Int.natAbs_of_nonneg hnum
  set n : Nat := q.num.natAbs with hn
  set d : Nat := q.den with hd
  have h1 : ((n : ℚ)) = (q.num : ℚ) := by
    rw [hn]
    have h2 := congrArg (fun z : ℤ => (z : ℚ)) habs
    simpa using h2
  have hq : q = (n : ℚ) / (d : ℚ) := by
    rw [hd, h1]
    exact (Rat.num_div_den q).symm
  have hsum : q + 1 / 2 = ((2 * n + d : Nat) : ℚ) / ((2 * d : Nat) : ℚ) := by
    rw [hq]
    have hd0 : ((d : ℚ)) ≠ 0 := by
      rw [hd]
      exact_mod_cast q.den_pos.ne'
    push_cast
    field_simp
    ring
  rw [hsum, Rat.floor_natCast_div_natCast]
  unfold f32_round
  rw [if_pos hnum]
  exact Int.ofNat_tdiv (2 * n + d) (2 * d)

/-! ## Claim C1 -/

/-- Claim C1, counterexample: the claim states that after the removal
callbacks run, the listeners are dropped and only then the proxy
(callbacks, then listeners, then proxy).  On a registry where id 5 has a
callback, a proxy and a listener, `remove_object` emits the proxy drop
*before* the listener drop, so the claimed ordering fails. -/
theorem C1_counterexample :
    (c1subs.remove_object 5).2
      = [RemoveEvent.callback 5 21, RemoveEvent.dropDisposers 5,
         RemoveEvent.dropProxy 5, RemoveEvent.dropListeners 5]
    ∧ ¬ List.indexOf (RemoveEvent.dropListeners 5) (c1subs.remove_object 5).2
          < List.indexOf (RemoveEvent.dropProxy 5) (c1subs.remove_object 5).2 := by
  decide

/-- Claim C1, amended: removing a tracked object invokes every removal
callback registered for the id in registration order, and only then are
the id's resources dropped — but in the order disposer list, owned
proxy, property-change listeners (the proxy is dropped *before* the
listeners, not after); afterwards the id is gone from all three maps. -/
theorem C1_remove_order (s : Subscriptions) (oid : Nat) (ds : List Nat)
    (h1 : alookup s.disposers oid = some ds)
    (h2 : acontains s.objects oid = true)
    (h3 : acontains s.listeners oid = true) :
    (s.remove_object oid).2
      = ds.map (RemoveEvent.callback oid)
        ++ [RemoveEvent.dropDisposers oid, RemoveEvent.dropProxy oid,
            RemoveEvent.dropListeners oid]
    ∧ alookup (s.remove_object oid).1.disposers oid = none
    ∧ alookup (s.remove_object oid).1.objects oid = none
    ∧ alookup (s.remove_object oid).1.listeners oid = none := by
  have hd : acontains s.disposers oid = true := by
    unfold acontains
    rw [h1]
    rfl
  refine ⟨?_, ?_, ?_, ?_⟩
  · simp [Subscriptions.remove_object, h1, hd, h2, h3]
  · exact alookup_aerase_self s.disposers oid
  · exact alookup_aerase_self s.objects oid
  · exact alookup_aerase_self s.listeners oid

/-- Claim C1 witness: the amended removal-order theorem applied to the
concrete registry `c1subs` at id 5. -/
theorem C1_remove_order_witness :
    alookup c1subs.disposers 5 = some [21]
    ∧ acontains c1subs.objects 5 = true
    ∧ acontains c1subs.listeners 5 = true
    ∧ ((c1subs.remove_object 5).2
        = [21].map (RemoveEvent.callback 5)
          ++ [RemoveEvent.dropDisposers 5, RemoveEvent.dropProxy 5,
              RemoveEvent.dropListeners 5]
      ∧ alookup (c1subs.remove_object 5).1.disposers 5 = none
      ∧ alookup (c1subs.remove_object 5).1.objects 5 = none
      ∧ alookup (c1subs.remove_object 5).1.listeners 5 = none) :=
  ⟨by decide, by decide, by decide,
   C1_remove_order c1subs 5 [21] (by decide) (by decide) (by decide)⟩

/-! ## Claim C4 -/

/-- Claim C4, counterexample: the claim states that adding a
property-change listener for an id with no registered proxy fails with
an unregistered-object error and leaves the registry unchanged.  But
`add_subscription` has no failure path at all: for id 7 on the empty
registry it succeeds, records the listener, and changes the registry. -/
theorem C4_counterexample :
    acontains Subscriptions.new.objects 7 = false
    ∧ Subscriptions.new.add_subscription 7 11 = ⟨[(7, [11])], [], []⟩
    ∧ (Subscriptions.new.add_subscription 7 11).listeners
        ≠ Subscriptions.new.listeners := by
  decide

/-- Claim C4, amended: `add_subscription` never fails and appends the
listener to the id's bucket unconditionally, proxy or no proxy (leaving
objects and disposers untouched); it is registering a *removal callback*
(`on_object_remove`) for an id with no proxy that fails with the
unregistered-object error, leaving the registry unchanged. -/
theorem C4_add_listener_unchecked (s : Subscriptions) (oid l d : Nat)
    (h : acontains s.objects oid = false) :
    (s.add_subscription oid l).objects = s.objects
    ∧ (s.add_subscription oid l).disposers = s.disposers
    ∧ alookup (s.add_subscription oid l).listeners oid
        = some ((alookup s.listeners oid).getD [] ++ [l])
    ∧ s.on_object_remove oid d = Except.error (SubsError.unregisteredObject oid) := by
  refine ⟨rfl, rfl, alookup_apush_self s.listeners oid l, ?_⟩
  simp [Subscriptions.on_object_remove, h]

/-- Claim C4 witness: the amended theorem applied to the empty registry
at id 7. -/
theorem C4_add_listener_unchecked_witness :
    acontains Subscriptions.new.objects 7 = false
    ∧ ((Subscriptions.new.add_subscription 7 11).objects = Subscriptions.new.objects
      ∧ (Subscriptions.new.add_subscription 7 11).disposers = Subscriptions.new.disposers
      ∧ alookup (Subscriptions.new.add_subscription 7 11).listeners 7
          = some ((alookup Subscriptions.new.listeners 7).getD [] ++ [11])
      ∧ Subscriptions.new.on_object_remove 7 3
          = Except.error (SubsError.unregisteredObject 7)) :=
  ⟨by decide, C4_add_listener_unchecked Subscriptions.new 7 11 3 (by decide)⟩

/-! ## Claim C5 -/

/-- Claim C5, counterexample: the claim states the supervisor first
stops the native loop, then calls `clear()`, then enqueues `Shutdown`.
On a concrete registry the actual trace starts with the `clear()` call:
`clear` happens *before* the loop stop. -/
theorem C5_counterexample :
    (supervisor_on_cancel c5subs).2.head? = some SupEvent.clearSubs
    ∧ (supervisor_on_cancel c5subs).2
        ≠ [SupEvent.stopLoop, SupEvent.clearSubs, SupEvent.enqueueShutdown] := by
  decide

/-- Claim C5, amended: on receipt of the one-shot cancellation signal
the supervisor first calls the registry's `clear()` (dropping disposers
and listeners but keeping the owned proxies), then stops the native
loop, then unconditionally enqueues a `Shutdown` action. -/
theorem C5_cancel_sequence (s : Subscriptions) :
    (supervisor_on_cancel s).2
      = [SupEvent.clearSubs, SupEvent.stopLoop, SupEvent.enqueueShutdown]
    ∧ (supervisor_on_cancel s).1 = s.clear
    ∧ (supervisor_on_cancel s).1.disposers = []
    ∧ (supervisor_on_cancel s).1.listeners = []
    ∧ (supervisor_on_cancel s).1.objects = s.objects :=
  ⟨rfl, rfl, rfl, rfl, rfl⟩

/-! ## Claim C10 -/

/-- Claim C10: in the `Subscriptions` registry, every id that has a
removal-callback (disposer) bucket also has a registered proxy object;
the inclusion holds for the initial registry and is preserved by
`add_subscription`, `add_object`, `on_object_remove`, `remove_object`
and `clear`. -/
theorem C10_disposer_object_invariant :
    DisposersRegistered Subscriptions.new
    ∧ (∀ s oid l, DisposersRegistered s →
        DisposersRegistered (s.add_subscription oid l))
    ∧ (∀ s obj, DisposersRegistered s → DisposersRegistered (s.add_object obj))
    ∧ (∀ s oid d s', DisposersRegistered s →
        s.on_object_remove oid d = Except.ok s' → DisposersRegistered s')
    ∧ (∀ s oid, DisposersRegistered s → DisposersRegistered (s.remove_object oid).1)
    ∧ (∀ s, DisposersRegistered s → DisposersRegistered s.clear) := by
  refine ⟨?_, ?_, ?_, ?_, ?_, ?_⟩
  · intro p hp
    simp [Subscriptions.new] at hp
  · intro s oid l h
    exact h
  · intro s obj h p hp
    exact acontains_aorInsert_of obj.oid obj (h p hp)
  · intro s oid d s' h heq
    unfold Subscriptions.on_object_remove at heq
    cases hc : acontains s.objects oid
    · simp only [hc] at heq
      exact Except.noConfusion heq
    · simp only [hc] at heq
      injection heq with heq2
      subst heq2
      intro p hp
      rcases mem_apush hp with h1 | ⟨l2, h2⟩
      · rw [h1]
        exact hc
      · exact h (p.1, l2) h2
  · intro s oid h p hp
    obtain ⟨hin, hne⟩ := mem_aerase hp
    exact acontains_aerase_of_ne (h p hin) hne
  · intro s h p hp
    simp [Subscriptions.clear] at hp

/-- Claim C10 witness: the invariant transported across `remove_object`
on a concrete registry where id 3 holds a proxy and a disposer. -/
theorem C10_disposer_object_invariant_witness :
    DisposersRegistered
      ((⟨[], [(3, ⟨3, 0⟩)], [(3, [4])]⟩ : Subscriptions).remove_object 3).1 :=
  C10_disposer_object_invariant.2.2.2.2.1 ⟨[], [(3, ⟨3, 0⟩)], [(3, [4])]⟩ 3 (by
    intro p hp
    simp only [List.mem_singleton] at hp
    subst hp
    decide)

/-! ## Claim C2 -/

/-- Claim C2: for a live entry whose stored volume is `Some(v1)`,
processing `VolumeChange(id, v2)` with `v2` equal to `v1` — equality
holding iff `volume`, `mute` and `channel_volumes` are pairwise equal —
is a no-op: the state is unchanged and no presentation call is made. -/
theorem C2_duplicate_volume_noop (st : State) (next oid : Nat) (e : Entry)
    (v1 v2 : VolumeInfo)
    (h1 : alookup st.devices oid = some e) (h2 : e.volume = some v1)
    (hvol : v1.volume = v2.volume) (hmute : v1.mute = v2.mute)
    (hch : v1.channel_volumes = v2.channel_volumes) :
    handle_action st next (ActionType.VolumeChange oid v2) = (st, next, []) := by
  have hv : v1 = v2 := by
    cases v1
    cases v2
    simp_all
  subst hv
  simp [handle_action, h1, h2]

/-- Claim C2 witness: the deduplication theorem applied to the concrete
state `c2state`, with `c2vol` written with un-normalized rationals that
are pairwise equal to the stored `c2stored`. -/
theorem C2_duplicate_volume_noop_witness :
    alookup c2state.devices 2 = some c2entry
    ∧ c2entry.volume = some c2stored
    ∧ c2stored.volume = c2vol.volume
    ∧ c2stored.mute = c2vol.mute
    ∧ c2stored.channel_volumes = c2vol.channel_volumes
    ∧ handle_action c2state 0 (ActionType.VolumeChange 2 c2vol) = (c2state, 0, []) :=
  ⟨by decide, by decide, by decide, by decide, by decide,
   C2_duplicate_volume_noop c2state 0 2 c2entry c2stored c2vol
     (by decide) (by decide) (by decide) (by decide) (by decide)⟩

/-! ## Claim C3 -/

/-- Claim C3, counterexample: the claim states that after the first
snapshot is stored, a second `VolumeChange` with *any* different value
produces exactly one show call.  With the different value `c3volB`
(no mute flag, no derivable volume), the second change produces zero
presentation calls, not one. -/
theorem C3_counterexample :
    (handle_action c3state 0 (ActionType.VolumeChange 1 c3volA)).2.2 = []
    ∧ alookup (handle_action c3state 0 (ActionType.VolumeChange 1 c3volA)).1.devices 1
        = some { c3entry with volume := some c3volA }
    ∧ c3volB ≠ c3volA
    ∧ (handle_action (handle_action c3state 0 (ActionType.VolumeChange 1 c3volA)).1 0
        (ActionType.VolumeChange 1 c3volB)).2.2 = [] := by
  decide

/-- Claim C3, amended: for a live entry with stored volume `None`, the
first `VolumeChange` stores the value and produces zero presentation
calls; a second `VolumeChange` with a different value produces exactly
one show call provided the new value is classifiable (a true mute flag,
or a master/channel volume present) and no notification handle is
outstanding for the id. -/
theorem C3_first_snapshot_then_show (st : State) (next oid : Nat) (e : Entry)
    (v w : VolumeInfo)
    (h1 : alookup st.devices oid = some e) (h2 : e.volume = none)
    (h3 : alookup st.notifications oid = none) (h4 : w ≠ v)
    (h5 : w.mute = some true ∨ w.volume ≠ none ∨ w.channel_volumes ≠ []) :
    handle_action st next (ActionType.VolumeChange oid v)
      = ({ st with devices := ainsert st.devices oid { e with volume := some v } },
         next, [])
    ∧ ∃ n : Notification,
        handle_action
            { st with devices := ainsert st.devices oid { e with volume := some v } }
            next (ActionType.VolumeChange oid w)
          = (⟨ainsert (ainsert st.devices oid { e with volume := some v }) oid
                { e with volume := some w },
              ainsert st.notifications oid next⟩,
             next + 1, [PCall.showN n]) := by
  constructor
  · simp [handle_action, h1, h2]
  · have hb : ∃ n, build_volume_notification { e with volume := some v } w = some n := by
      cases hbn : build_volume_notification { e with volume := some v } w with
      | none =>
        rw [build_volume_notification_eq_none_iff] at hbn
        rcases h5 with h5 | h5 | h5
        · exact absurd h5 hbn.1
        · exact absurd hbn.2.1 h5
        · exact absurd hbn.2.2 h5
      | some n => exact ⟨n, rfl⟩
    obtain ⟨n, hb⟩ := hb
    refine ⟨n, ?_⟩
    have hl : alookup (ainsert st.devices oid { e with volume := some v }) oid
        = some { e with volume := some v } := alookup_ainsert_self st.devices oid _
    have hne : ¬ v = w := fun hh => h4 hh.symm
    simp [handle_action, hl, hb, h3, hne]

/-- Claim C3 witness: the amended theorem applied to the fresh entry
`c3entry` with first snapshot `c3volA` and classifiable second value
`c3volC`. -/
theorem C3_first_snapshot_then_show_witness :
    alookup c3state.devices 1 = some c3entry
    ∧ c3entry.volume = none
    ∧ alookup c3state.notifications 1 = none
    ∧ c3volC ≠ c3volA
    ∧ (handle_action c3state 0 (ActionType.VolumeChange 1 c3volA)
        = ({ c3state with
              devices := ainsert c3state.devices 1 { c3entry with volume := some c3volA } },
           0, [])
      ∧ ∃ n : Notification,
          handle_action
              { c3state with
                devices := ainsert c3state.devices 1 { c3entry with volume := some c3volA } }
              0 (ActionType.VolumeChange 1 c3volC)
            = (⟨ainsert (ainsert c3state.devices 1 { c3entry with volume := some c3volA }) 1
                  { c3entry with volume := some c3volC },
                ainsert c3state.notifications 1 0⟩,
               1, [PCall.showN n])) :=
  ⟨by decide, by decide, by decide, by decide,
   C3_first_snapshot_then_show c3state 0 1 c3entry c3volA c3volC
     (by decide) (by decide) (by decide) (by decide) (by decide)⟩

/-! ## Claim C6 -/

/-- Claim C6, counterexample: the claim states that processing
`Shutdown` terminates the consumer loop.  Both handles are closed and
both maps emptied, but the loop is *not* terminated: an `EntryAdd`
queued after `Shutdown` is still processed and repopulates the
live-entries map. -/
theorem C6_counterexample :
    (run_loop c6state 0 [ActionType.Shutdown]).1.devices = []
    ∧ (run_loop c6state 0 [ActionType.Shutdown]).1.notifications = []
    ∧ (run_loop c6state 0 [ActionType.Shutdown]).2.2
        = [PCall.closeN 10, PCall.closeN 11]
    ∧ (run_loop c6state 0 [ActionType.Shutdown, ActionType.EntryAdd 3 c6entryC]).1.devices
        = [(3, c6entryC)] := by
  decide

/-- Claim C6, amended: processing the `Shutdown` action closes every
outstanding notification handle and leaves both reconciler maps empty,
but it does not terminate the consumer loop: any actions still delivered
afterwards are processed normally (the loop exits only via the external
interrupt arm of the `select!`). -/
theorem C6_shutdown_clears_not_terminates (st : State) (next : Nat)
    (rest : List ActionType) :
    handle_action st next ActionType.Shutdown
      = (⟨[], []⟩, next, st.clear_entries.2.map PCall.closeN)
    ∧ (run_loop st next (ActionType.Shutdown :: rest)).1
        = (run_loop ⟨[], []⟩ next rest).1
    ∧ (run_loop st next (ActionType.Shutdown :: rest)).2.2
        = st.clear_entries.2.map PCall.closeN ++ (run_loop ⟨[], []⟩ next rest).2.2 :=
  ⟨rfl, rfl, rfl⟩

/-! ## Claim C7 -/

/-- Claim C7, counterexample: the claim states that whenever a mute flag
is present a notification is built.  For the genuine change `c7vol`
(mute flag present but `false`, no derivable volume) no notification is
built: the existing handle is closed and cleared instead. -/
theorem C7_counterexample :
    c7vol.mute.isSome = true
    ∧ build_volume_notification c7entry c7vol = none
    ∧ handle_action c7state 0 (ActionType.VolumeChange 1 c7vol)
        = (⟨[(1, { c7entry with volume := some c7vol })], []⟩, 0, [PCall.closeN 10]) := by
  decide

/-- Claim C7, amended: for a genuine `VolumeChange` on a live entry, no
notification is built — and any existing handle for the id is closed and
cleared — exactly when the mute flag is absent *or false* and no
derivable volume value is present; whenever the mute flag is `true` or a
derivable volume value is present, a notification is built and exactly
one show or update call is made. -/
theorem C7_unclassifiable_silence (st : State) (next oid : Nat) (e : Entry)
    (v w : VolumeInfo)
    (h1 : alookup st.devices oid = some e) (h2 : e.volume = some v) (h3 : v ≠ w) :
    (build_volume_notification e w = none
      ↔ (w.mute ≠ some true ∧ w.volume = none ∧ w.channel_volumes = []))
    ∧ (build_volume_notification e w = none →
        handle_action st next (ActionType.VolumeChange oid w)
          = (⟨ainsert st.devices oid { e with volume := some w },
              aerase st.notifications oid⟩, next,
             match alookup st.notifications oid with
             | some h => [PCall.closeN h]
             | none => []))
    ∧ (∀ n, build_volume_notification e w = some n →
        (handle_action st next (ActionType.VolumeChange oid w)).2.2 = [PCall.showN n]
        ∨ ∃ h, (handle_action st next (ActionType.VolumeChange oid w)).2.2
            = [PCall.updateN h n]) := by
  refine ⟨build_volume_notification_eq_none_iff e w, ?_, ?_⟩
  · intro hb
    cases hn : alookup st.notifications oid with
    | some h => simp [handle_action, h1, h2, h3, hb, hn]
    | none =>
      simp [handle_action, h1, h2, h3, hb, hn,
        aerase_eq_of_alookup_none st.notifications oid hn]
  · intro n hb
    cases hn : alookup st.notifications oid with
    | some h =>
      right
      exact ⟨h, by simp [handle_action, h1, h2, h3, hb, hn]⟩
    | none =>
      left
      simp [handle_action, h1, h2, h3, hb, hn]

/-- Claim C7 witness: the amended theorem applied to the concrete state
`c7state` with the genuine but unclassifiable change `c7vol`. -/
theorem C7_unclassifiable_silence_witness :
    alookup c7state.devices 1 = some c7entry
    ∧ c7entry.volume = some c7stored
    ∧ c7stored ≠ c7vol
    ∧ ((build_volume_notification c7entry c7vol = none
        ↔ (c7vol.mute ≠ some true ∧ c7vol.volume = none ∧ c7vol.channel_volumes = []))
      ∧ (build_volume_notification c7entry c7vol = none →
          handle_action c7state 0 (ActionType.VolumeChange 1 c7vol)
            = (⟨ainsert c7state.devices 1 { c7entry with volume := some c7vol },
                aerase c7state.notifications 1⟩, 0,
               match alookup c7state.notifications 1 with
               | some h => [PCall.closeN h]
               | none => []))
      ∧ (∀ n, build_volume_notification c7entry c7vol = some n →
          (handle_action c7state 0 (ActionType.VolumeChange 1 c7vol)).2.2
              = [PCall.showN n]
          ∨ ∃ h, (handle_action c7state 0 (ActionType.VolumeChange 1 c7vol)).2.2
              = [PCall.updateN h n])) :=
  ⟨by decide, by decide, by decide,
   C7_unclassifiable_silence c7state 0 1 c7entry c7stored c7vol
     (by decide) (by decide) (by decide)⟩

/-! ## Claim C8 -/

/-- Claim C8, counterexample: the claim states a `VolumeChange` is
emitted only for payloads parsing into a *non-empty* `VolumeInfo`.  A
payload whose `volume` key carries an unparseable value sets the `found`
flag without setting any field, so an action carrying a fully empty
`VolumeInfo` is emitted. -/
theorem C8_counterexample :
    node_param_event 3 ParamType.Props
        (some (Pod.object [⟨SPA_PROP_volume, PodValue.otherV⟩]))
      = some (ActionType.VolumeChange 3 ⟨none, none, []⟩)
    ∧ (⟨none, none, []⟩ : VolumeInfo).volume = none
    ∧ (⟨none, none, []⟩ : VolumeInfo).mute = none
    ∧ (⟨none, none, []⟩ : VolumeInfo).channel_volumes = [] := by
  decide

/-- Claim C8, amended: a property-change callback with a parameter type
other than `Props` emits nothing, as do a missing payload and a payload
that is not an object; for an object payload, a `VolumeChange` is
emitted iff at least one recognized sub-field key is present (a `volume`
or `mute` key, or a `channelVolumes` key whose payload deserializes to a
float array) — the emitted `VolumeInfo` may still be empty when a
recognized key's value fails to parse. -/
theorem C8_props_emission (nid : Nat) (t : ParamType) (p : Option Pod)
    (props : List PodProp) (h : t ≠ ParamType.Props) :
    node_param_event nid t p = none
    ∧ node_param_event nid ParamType.Props none = none
    ∧ node_param_event nid ParamType.Props (some Pod.notObject) = none
    ∧ (node_param_event nid ParamType.Props (some (Pod.object props))).isSome
        = props.any recognized_prop := by
  refine ⟨?_, rfl, rfl, ?_⟩
  · cases t with
    | Props => exact absurd rfl h
    | Route => rfl
    | Other => rfl
  · rw [← volume_from_pod_isSome props]
    cases hv : volume_from_pod (Pod.object props) <;> simp [node_param_event, hv]

/-- Claim C8 witness: the amended theorem applied at parameter type
`Route` and a payload carrying a parseable mute flag. -/
theorem C8_props_emission_witness :
    ParamType.Route ≠ ParamType.Props
    ∧ (node_param_event 3 ParamType.Route none = none
      ∧ node_param_event 3 ParamType.Props none = none
      ∧ node_param_event 3 ParamType.Props (some Pod.notObject) = none
      ∧ (node_param_event 3 ParamType.Props
            (some (Pod.object [⟨SPA_PROP_mute, PodValue.boolV true⟩]))).isSome
          = ([⟨SPA_PROP_mute, PodValue.boolV true⟩] : List PodProp).any recognized_prop) :=
  ⟨by decide,
   C8_props_emission 3 ParamType.Route none [⟨SPA_PROP_mute, PodValue.boolV true⟩]
     (by decide)⟩

/-! ## Claim C9 -/

/-- Claim C9: a genuine `VolumeChange` to volume 0.6 (mute `Some(false)`)
on live entry 5 with a different stored volume produces exactly one show
call — but the displayed value is 1 percent, not the claimed 60 percent:
`build_volume_notification` rounds the raw 0.0–1.0 volume without
scaling it to a percentage (`value.round() as i32`), so both the summary
text and the progress hint read 1. -/
theorem C9_show_percentage_bug :
    handle_action c9state 0 (ActionType.VolumeChange 5 c9vol)
      = (⟨[(5, { c9entry with volume := some c9vol })], [(5, 0)]⟩, 1,
         [PCall.showN ⟨"Headphones - 1%", "audio-volume-high-symbolic", some 1, true, 5⟩])
    ∧ (⟨"Headphones - 1%", "audio-volume-high-symbolic", some 1, true, 5⟩
        : Notification).hint ≠ some 60 := by
  decide
